import Mathlib

/-!
Verification development for the wallet transaction-ledger core.

Shallow embedding of the ledger write and read paths of the repository:

- domain/service/TransactionService.js  (local-server service)
- infrastructure/db/PostgresRepository.js  (local-server store)
- application/service/createTransactionService.js  (lambda service)
- adapter/persistence/write/pgTransactionWriteRepositoryAdapter.js  (lambda write store)
- PgTransactionReadRepositoryAdapter  (lambda read store, in queryLambdaHandler.js)

Modelling conventions
- A JavaScript number is an exact integer or NaN (`JsNum`); the claims only involve
  integer amounts and order comparisons, so exact integers stand in for floats.
  JavaScript comparisons on NaN are false and arithmetic on NaN is NaN.
- Loosely typed inputs are `JSValue` with JavaScript truthiness and typeof semantics.
- Database timestamps (assigned by the store or supplied by the caller as ISO-8601
  strings, which order chronologically) are naturals; the store assigns them from a
  monotone clock in the state.
- Each BEGIN/COMMIT/ROLLBACK unit is a function returning `Except`: on `ok` it yields
  the committed state, on `error` the ROLLBACK in the catch block discards every
  statement of the unit, so the caller keeps the pre-call state. `Faults` injects
  store failures at the INSERT and at the balance UPDATE statements of the unit.
- Errors are an inductive type whose constructors name the thrown Error messages.
-/

namespace Wallet

/-- JavaScript number value: an exact integer or NaN. -/
inductive JsNum where
  | num (n : Int)
  | nan
deriving DecidableEq, Repr

/-- JavaScript addition: NaN on either side gives NaN. -/
def JsNum.add : JsNum → JsNum → JsNum
  | .num a, .num b => .num (a + b)
  | _, _ => .nan

/-- JavaScript subtraction: NaN on either side gives NaN. -/
def JsNum.sub : JsNum → JsNum → JsNum
  | .num a, .num b => .num (a - b)
  | _, _ => .nan

/-- JavaScript negation. -/
def JsNum.neg : JsNum → JsNum
  | .num a => .num (-a)
  | .nan => .nan

/-- JavaScript comparison a <= b: false when either side is NaN. -/
def JsNum.leB : JsNum → JsNum → Bool
  | .num a, .num b => decide (a ≤ b)
  | _, _ => false

/-- JavaScript comparison a > b: false when either side is NaN. -/
def JsNum.gtB : JsNum → JsNum → Bool
  | .num a, .num b => decide (b < a)
  | _, _ => false

/-- JavaScript comparison a < b: false when either side is NaN. -/
def JsNum.ltB : JsNum → JsNum → Bool
  | .num a, .num b => decide (a < b)
  | _, _ => false

/-- Sum of a list of JavaScript numbers, zero for the empty list. The SQL SUM in
    getUserBalance is wrapped in COALESCE(..., 0), which this zero realises. -/
def jsum (l : List JsNum) : JsNum := l.foldr JsNum.add (.num 0)

/-- Loosely typed JavaScript value as received by the services. -/
inductive JSValue where
  | jstr (s : String)
  | jnum (n : Int)
  | jnan
  | jbool (b : Bool)
  | jnull
  | jundef
deriving DecidableEq, Repr

/-- JavaScript truthiness: empty string, 0, NaN, false, null, undefined are falsy. -/
def truthy : JSValue → Bool
  | .jstr s => !(s == "")
  | .jnum n => decide (n ≠ 0)
  | .jnan => false
  | .jbool b => b
  | .jnull => false
  | .jundef => false

/-- The test typeof v === "string". -/
def isString : JSValue → Bool
  | .jstr _ => true
  | _ => false

/-- The test typeof v === "number": true for any numeric value, including NaN. -/
def typeofNumber : JSValue → Bool
  | .jnum _ => true
  | .jnan => true
  | _ => false

/-- Decimal digit test on a character code. -/
def isDigitChar (c : Char) : Bool := decide (48 ≤ c.toNat) && decide (c.toNat ≤ 57)

/-- Value of a list of decimal digits, most significant first. -/
def digitsToNat (l : List Char) : Nat :=
  l.foldl (fun n c => n * 10 + (c.toNat - 48)) 0

/-- JavaScript Number() coercion on the value shapes the code receives: numbers map
    to themselves, booleans and null to 0 or 1, undefined to NaN; the empty string
    maps to 0, an unsigned integer literal string to its value and any other string
    to NaN (the fragment of string coercion the claims exercise). -/
def toNumber : JSValue → JsNum
  | .jnum n => .num n
  | .jnan => .nan
  | .jbool b => .num (if b then 1 else 0)
  | .jnull => .num 0
  | .jundef => .nan
  | .jstr s =>
      if s.data = [] then .num 0
      else if s.data.all isDigitChar then .num (digitsToNat s.data)
      else .nan

/-- String content of a JSValue; only applied after a typeof string check passed. -/
def strOf : JSValue → String
  | .jstr s => s
  | _ => ""

/-- The property of being a positive number in the sense of the specification text:
    a numeric value strictly greater than zero. NaN is not a positive number. -/
def isPositiveNumber : JSValue → Bool
  | .jnum n => decide (0 < n)
  | _ => false

/-- The thrown Error values, one constructor per distinct message in the source. -/
inductive WErr where
  | invalidOrMissingUserId
  | amountMustBePositiveNumber
  | typeMustBeDepositOrWithdraw
  | userIdIsRequired
  | userIdRequired
  | amountMustBePositive
  | invalidType
  | userNotFound
  | insufficientBalance
  | invalidTransactionType
  | duplicateKey
  | insertFailed
  | updateFailed
  | publishFailed
deriving DecidableEq, Repr

/-- Injected failures of individual store statements inside the atomic unit. -/
structure Faults where
  failInsert : Bool
  failUpdate : Bool
deriving DecidableEq, Repr

/-- No injected store failure. -/
def noFaults : Faults := ⟨false, false⟩

/-- Row of the transactions table as written by PostgresRepository: the INSERT
    supplies user_id, amount and type, the database fills the timestamp. -/
structure PTx where
  user_id : String
  amount : JsNum
  type : String
  ts : Nat
deriving DecidableEq, Repr

/-- Durable state behind PostgresRepository: the users table (user_id, balance),
    the transactions table in insertion order, and the timestamp clock. -/
structure StateP where
  users : List (String × JsNum)
  log : List PTx
  clock : Nat
deriving DecidableEq, Repr

/-- SELECT balance FROM users WHERE user_id matches: the balance of the first
    matching row (the code reads rows[0]). -/
def lookupBalance : List (String × JsNum) → String → Option JsNum
  | [], _ => none
  | p :: ps, u => if p.1 == u then some p.2 else lookupBalance ps u

/-- UPDATE users SET balance where user_id matches; a key with no row changes
    nothing. -/
def setBalance : List (String × JsNum) → String → JsNum → List (String × JsNum)
  | [], _, _ => []
  | p :: ps, u, b =>
      if p.1 == u then (p.1, b) :: setBalance ps u b else p :: setBalance ps u b

namespace PostgresRepository

/-- PostgresRepository.saveTransaction: BEGIN; SELECT balance (no FOR UPDATE);
    throw User not found on an empty result; for deposit add, for withdraw throw
    Insufficient balance when amount > balance else subtract, otherwise throw
    Invalid transaction type; INSERT the transaction row; UPDATE the absolute new
    balance; COMMIT. Every throw reaches the catch, which issues ROLLBACK and
    rethrows, so an error result exposes none of the statements of the unit. -/
def saveTransaction (f : Faults) (s : StateP) (userId : String) (amount : JsNum)
    (ty : String) : Except WErr (StateP × PTx) :=
  match lookupBalance s.users userId with
  | none => .error .userNotFound
  | some bal =>
    if ty = "deposit" then
      if f.failInsert then .error .insertFailed
      else if f.failUpdate then .error .updateFailed
      else
        .ok ({ users := setBalance s.users userId (bal.add amount),
               log := s.log ++ [⟨userId, amount, ty, s.clock⟩],
               clock := s.clock + 1 }, ⟨userId, amount, ty, s.clock⟩)
    else if ty = "withdraw" then
      if amount.gtB bal then .error .insufficientBalance
      else if f.failInsert then .error .insertFailed
      else if f.failUpdate then .error .updateFailed
      else
        .ok ({ users := setBalance s.users userId (bal.sub amount),
               log := s.log ++ [⟨userId, amount, ty, s.clock⟩],
               clock := s.clock + 1 }, ⟨userId, amount, ty, s.clock⟩)
    else .error .invalidTransactionType

/-- Caller-facing form of saveTransaction: an error leaves the caller with the
    rolled-back, unchanged state. -/
def runSaveTransaction (f : Faults) (s : StateP) (userId : String) (amount : JsNum)
    (ty : String) : StateP × Except WErr PTx :=
  match saveTransaction f s userId amount ty with
  | .ok p => (p.1, .ok p.2)
  | .error e => (s, .error e)

/-- Descending timestamp order used by ORDER BY timestamp DESC. -/
def tsDesc (a b : PTx) : Bool := decide (b.ts ≤ a.ts)

/-- PostgresRepository.getUserTransactions: SELECT * FROM transactions WHERE
    user_id matches ORDER BY timestamp DESC. -/
def getUserTransactions (s : StateP) (u : String) : List PTx :=
  (s.log.filter (fun t => t.user_id == u)).mergeSort tsDesc

/-- The CASE expression of getUserBalance: +amount for deposit, -amount for
    withdraw, 0 otherwise. -/
def signedAmount (t : PTx) : JsNum :=
  if t.type = "deposit" then t.amount
  else if t.type = "withdraw" then t.amount.neg
  else .num 0

/-- PostgresRepository.getUserBalance: COALESCE(SUM(CASE ...), 0) over the rows of
    the user, the derived-balance read path. -/
def getUserBalance (s : StateP) (u : String) : JsNum :=
  jsum ((s.log.filter (fun t => t.user_id == u)).map signedAmount)

end PostgresRepository

/-- Input of TransactionService.processTransaction. -/
structure CmdP where
  userId : JSValue
  amount : JSValue
  type : JSValue
deriving DecidableEq, Repr

namespace TransactionService

/-- TransactionService.processTransaction: validate userId, amount and type in that
    order, failing fast; for withdraw run the advisory derived-balance check; persist
    through PostgresRepository.saveTransaction; then await eventPublisher.publish.
    `pubOk = false` injects a throwing publish: the catch block of the method logs
    and rethrows, so a publish failure surfaces as an error while the state already
    committed by the store is kept. -/
def processTransaction (pubOk : Bool) (f : Faults) (c : CmdP) (s : StateP) :
    StateP × Except WErr PTx :=
  if !(truthy c.userId && isString c.userId) then (s, .error .invalidOrMissingUserId)
  else if !(typeofNumber c.amount) || (toNumber c.amount).leB (.num 0) then
    (s, .error .amountMustBePositiveNumber)
  else if !(c.type == .jstr "deposit" || c.type == .jstr "withdraw") then
    (s, .error .typeMustBeDepositOrWithdraw)
  else if strOf c.type = "withdraw"
      && (toNumber c.amount).gtB
          (PostgresRepository.getUserBalance s (strOf c.userId)) then
    (s, .error .insufficientBalance)
  else
    match PostgresRepository.saveTransaction f s (strOf c.userId) (toNumber c.amount)
        (strOf c.type) with
    | .error e => (s, .error e)
    | .ok p => if pubOk then (p.1, .ok p.2) else (p.1, .error .publishFailed)

/-- TransactionService.getUserTransactions: throws UserId is required on a falsy
    userId, otherwise delegates to the repository history query. -/
def getUserTransactions (u : JSValue) (s : StateP) : Except WErr (List PTx) :=
  if !(truthy u) then .error .userIdIsRequired
  else .ok (PostgresRepository.getUserTransactions s (strOf u))

/-- TransactionService.getUserBalance: throws UserId is required on a falsy userId,
    otherwise delegates to the derived-balance query. -/
def getUserBalance (u : JSValue) (s : StateP) : Except WErr JsNum :=
  if !(truthy u) then .error .userIdIsRequired
  else .ok (PostgresRepository.getUserBalance s (strOf u))

/-- Replays a sequence of processTransaction calls with a working publisher and a
    healthy store; a call that throws leaves the state unchanged, so exactly the
    successful calls of the sequence contribute. -/
def replay (cmds : List CmdP) (s : StateP) : StateP :=
  cmds.foldl (fun st c => (processTransaction true noFaults c st).1) s

end TransactionService

/-- A ledger with no recorded transactions; the users table is arbitrary since user
    identity is external to the ledger. -/
def emptyLedger (users0 : List (String × JsNum)) : StateP := ⟨users0, [], 0⟩

/-- Row of the transactions table as written by the lambda write adapter: the INSERT
    supplies every column, including the caller-visible transaction id. -/
structure ATx where
  transaction_id : String
  user_id : JSValue
  amount : JsNum
  type : String
  timestamp : Nat
deriving DecidableEq, Repr

/-- Durable state behind the lambda adapters: the users table (id, balance), the
    transactions table in insertion order, and a counter for generated ids and
    default timestamps. -/
structure StateA where
  users : List (JSValue × JsNum)
  log : List ATx
  clock : Nat
deriving DecidableEq, Repr

/-- SELECT balance FROM users WHERE id matches: the balance of the first matching
    row (the code reads rows[0]). -/
def lookupBalanceA : List (JSValue × JsNum) → JSValue → Option JsNum
  | [], _ => none
  | p :: ps, u => if p.1 == u then some p.2 else lookupBalanceA ps u

/-- UPDATE users SET balance = g(balance) where id matches; a key with no row
    changes nothing and raises nothing. -/
def updateBalanceA : List (JSValue × JsNum) → JSValue → (JsNum → JsNum) →
    List (JSValue × JsNum)
  | [], _, _ => []
  | p :: ps, u, g =>
      if p.1 == u then (p.1, g p.2) :: updateBalanceA ps u g
      else p :: updateBalanceA ps u g

namespace PgWrite

/-- PgTransactionWriteRepositoryAdapter.saveTransaction: BEGIN; INSERT the full row;
    UPDATE users SET balance = balance + amount for deposit and balance - amount for
    any other type, with no funds check and no user-existence check (an UPDATE that
    matches no row changes nothing and raises nothing); COMMIT; the catch issues
    ROLLBACK and rethrows. Modelled from the spec: the persisted schema of section 6
    declares the transaction id as PRIMARY KEY and the repository ships no DDL, so
    the INSERT of an existing id fails with a duplicate-key error before any write. -/
def saveTransaction (f : Faults) (s : StateA) (tx : ATx) : Except WErr StateA :=
  if s.log.any (fun t => t.transaction_id == tx.transaction_id) then
    .error .duplicateKey
  else if f.failInsert then .error .insertFailed
  else if f.failUpdate then .error .updateFailed
  else
    .ok { users := updateBalanceA s.users tx.user_id
            (fun b => if tx.type = "deposit" then b.add tx.amount else b.sub tx.amount),
          log := s.log ++ [tx], clock := s.clock + 1 }

/-- Caller-facing form of the adapter saveTransaction: an error leaves the caller
    with the rolled-back, unchanged state. -/
def runSaveTransaction (f : Faults) (s : StateA) (tx : ATx) :
    StateA × Except WErr Unit :=
  match saveTransaction f s tx with
  | .ok s2 => (s2, .ok ())
  | .error e => (s, .error e)

end PgWrite

namespace PgRead

/-- Descending timestamp order used by ORDER BY timestamp DESC. -/
def tsDescA (a b : ATx) : Bool := decide (b.timestamp ≤ a.timestamp)

/-- PgTransactionReadRepositoryAdapter.getTransactionsByUser: SELECT the rows of the
    user ORDER BY timestamp DESC LIMIT the given bound. -/
def getTransactionsByUser (s : StateA) (u : JSValue) (limit : Nat) : List ATx :=
  ((s.log.filter (fun t => t.user_id == u)).mergeSort tsDescA).take limit

/-- State-passing form of getTransactionsByUser: the operation is a single SELECT,
    so it returns the state it was given. -/
def getTransactionsByUserRun (s : StateA) (u : JSValue) (limit : Nat) :
    (List ATx) × StateA :=
  (getTransactionsByUser s u limit, s)

/-- PgTransactionReadRepositoryAdapter.getBalanceByUser: SELECT balance FROM users
    WHERE id matches; the first row gives Number(balance), no row gives null. This
    is the maintained-balance read path. -/
def getBalanceByUser (s : StateA) (u : JSValue) : Option JsNum :=
  lookupBalanceA s.users u

end PgRead

/-- Input command of CreateTransactionService.execute. -/
structure CmdA where
  user_id : JSValue
  amount : JSValue
  type : JSValue
  transaction_id : Option String
  timestamp : Option Nat
deriving DecidableEq, Repr

namespace CreateTransactionService

/-- Validation block at the top of CreateTransactionService.execute, returning the
    first violated check: falsy user_id; falsy amount or Number(amount) <= 0; type
    outside deposit and withdraw. -/
def validate (c : CmdA) : Option WErr :=
  if !(truthy c.user_id) then some .userIdRequired
  else if !(truthy c.amount) || (toNumber c.amount).leB (.num 0) then
    some .amountMustBePositive
  else if !(c.type == .jstr "deposit" || c.type == .jstr "withdraw") then
    some .invalidType
  else none

/-- Transaction object built by execute after validation: the caller id or a fresh
    generated uuid (modelled from the state counter), the user_id as given, the
    coerced Number amount, the type, and the caller timestamp or the current time. -/
def buildTx (c : CmdA) (s : StateA) : ATx :=
  { transaction_id := c.transaction_id.getD ("gen-" ++ toString s.clock),
    user_id := c.user_id,
    amount := toNumber c.amount,
    type := strOf c.type,
    timestamp := c.timestamp.getD s.clock }

/-- CreateTransactionService.execute: validate, build the transaction object,
    persist through the write adapter (which rolls back and rethrows on failure),
    publish the domain event and return the transaction. execute has no catch, so a
    synchronous publish throw (`pubOk = false`) propagates to the caller while the
    committed store state is kept. -/
def execute (pubOk : Bool) (f : Faults) (c : CmdA) (s : StateA) :
    StateA × Except WErr ATx :=
  match validate c with
  | some e => (s, .error e)
  | none =>
    match PgWrite.saveTransaction f s (buildTx c s) with
    | .error e => (s, .error e)
    | .ok s2 =>
        if pubOk then (s2, .ok (buildTx c s)) else (s2, .error .publishFailed)

end CreateTransactionService

/-- Progress of one in-flight PostgresRepository.saveTransaction withdrawal used to
    study two concurrent callers. Phase 0: about to run SELECT balance, a statement
    with no FOR UPDATE clause, so it reads the committed balance and never waits for
    the other client; phase 1: about to run the funds check against the balance it
    read; phase 2: about to COMMIT, making its buffered INSERT and its UPDATE of the
    absolute client-computed new balance durable (the UPDATE writes the value
    computed from the earlier SELECT, so a commit that waited on a row lock still
    overwrites with that value); phase 3: committed successfully; phase 4: the unit
    threw and rolled back. -/
structure CliState where
  phase : Nat
  readBal : JsNum
deriving DecidableEq, Repr

/-- One atomic step of a client withdrawing amt from the account of u. -/
def stepWithdraw (u : String) (amt : JsNum) (db : StateP) (c : CliState) :
    StateP × CliState :=
  match c.phase with
  | 0 =>
    match lookupBalance db.users u with
    | none => (db, { c with phase := 4 })
    | some b => (db, { phase := 1, readBal := b })
  | 1 =>
    if amt.gtB c.readBal then (db, { c with phase := 4 })
    else (db, { c with phase := 2 })
  | 2 =>
    ({ users := setBalance db.users u (c.readBal.sub amt),
       log := db.log ++ [⟨u, amt, "withdraw", db.clock⟩],
       clock := db.clock + 1 }, { c with phase := 3 })
  | _ => (db, c)

/-- Runs two concurrent withdrawals of the same amount for the same user under an
    interleaving schedule: true steps client 1, false steps client 2. -/
def runTwo (u : String) (amt : JsNum) : List Bool → StateP → CliState → CliState →
    StateP × CliState × CliState
  | [], db, c1, c2 => (db, c1, c2)
  | b :: rest, db, c1, c2 =>
    if b then
      let (db2, c1b) := stepWithdraw u amt db c1
      runTwo u amt rest db2 c1b c2
    else
      let (db2, c2b) := stepWithdraw u amt db c2
      runTwo u amt rest db2 c1 c2b

/-! Algebraic facts about JavaScript numbers, sums and the users table. -/

theorem jadd_comm (a b : JsNum) : a.add b = b.add a := by
  cases a <;> cases b <;> simp [JsNum.add, Int.add_comm]

theorem jadd_assoc (a b c : JsNum) : (a.add b).add c = a.add (b.add c) := by
  cases a <;> cases b <;> cases c <;> simp [JsNum.add, Int.add_assoc]

theorem jadd_left_comm (a b c : JsNum) : a.add (b.add c) = b.add (a.add c) := by
  cases a <;> cases b <;> cases c <;> simp [JsNum.add, Int.add_left_comm]

theorem jadd_zero (a : JsNum) : a.add (.num 0) = a := by
  cases a <;> simp [JsNum.add]

theorem zero_jadd (a : JsNum) : (JsNum.num 0).add a = a := by
  cases a <;> simp [JsNum.add]

theorem jsum_cons (x : JsNum) (l : List JsNum) : jsum (x :: l) = x.add (jsum l) := rfl

theorem jsum_perm {l1 l2 : List JsNum} (h : l1.Perm l2) : jsum l1 = jsum l2 := by
  induction h with
  | nil => rfl
  | cons x _ ih => rw [jsum_cons, jsum_cons, ih]
  | swap x y l => rw [jsum_cons, jsum_cons, jsum_cons, jsum_cons, jadd_left_comm]
  | trans _ _ ih1 ih2 => exact ih1.trans ih2

theorem jsum_append (l1 l2 : List JsNum) :
    jsum (l1 ++ l2) = (jsum l1).add (jsum l2) := by
  induction l1 with
  | nil => rw [List.nil_append]; exact (zero_jadd _).symm
  | cons x xs ih => rw [List.cons_append, jsum_cons, ih, jsum_cons, jadd_assoc]

theorem jadd_neg (a b : JsNum) : a.add b.neg = a.sub b := by
  cases a <;> cases b <;> simp [JsNum.add, JsNum.neg, JsNum.sub, Int.sub_eq_add_neg]

/-- A balance from which an amount passing the funds check (amount > balance being
    false) was subtracted is never below zero; in particular a NaN balance compares
    below nothing. -/
theorem sub_not_lt_zero (bal amt : JsNum) (h : amt.gtB bal = false) :
    (bal.sub amt).ltB (.num 0) = false := by
  cases bal <;> cases amt <;> simp_all [JsNum.sub, JsNum.ltB, JsNum.gtB]

theorem lookupBalance_setBalance (us : List (String × JsNum)) (u : String)
    (b0 b : JsNum) (h : lookupBalance us u = some b0) :
    lookupBalance (setBalance us u b) u = some b := by
  induction us with
  | nil => simp [lookupBalance] at h
  | cons p ps ih =>
    by_cases hp : (p.1 == u) = true
    · simp [lookupBalance, setBalance, hp]
    · simp [lookupBalance, setBalance, hp] at h ⊢
      exact ih h

/-- Derived balance and sorted history aggregate the same set of rows, for every
    store state: sorting the rows of the user permutes the signed amounts, and the
    sum is invariant under permutation. -/
theorem balance_eq_history_sum (s : StateP) (u : String) :
    PostgresRepository.getUserBalance s u
      = jsum ((PostgresRepository.getUserTransactions s u).map
          PostgresRepository.signedAmount) := by
  unfold PostgresRepository.getUserBalance PostgresRepository.getUserTransactions
  exact (jsum_perm ((List.mergeSort_perm _ _).map _)).symm

/-- C1: for every user and every sequence of process calls starting from an empty
    ledger (only the successful calls change the state), the derived balance read
    by getBalance equals the sum over all transactions returned by getHistory of
    +amount for deposits and -amount for withdrawals: getUserBalance computes
    exactly the signed sum of the rows that getUserTransactions returns. -/
theorem c1_balance_consistency (cmds : List CmdP) (users0 : List (String × JsNum))
    (u : String) :
    PostgresRepository.getUserBalance
        (TransactionService.replay cmds (emptyLedger users0)) u
      = jsum ((PostgresRepository.getUserTransactions
            (TransactionService.replay cmds (emptyLedger users0)) u).map
          PostgresRepository.signedAmount) :=
  balance_eq_history_sum _ _

/-- C3: a transaction write that fails at any step after BEGIN - user lookup
    failure, insufficient funds, an injected INSERT error or an injected balance
    UPDATE error - is fully rolled back on both write paths: the caller keeps the
    pre-call state, the inserted row and the balance change are invisible to every
    subsequent balance or history read, and the error is the value returned. -/
theorem c3_atomic_rollback :
    (∀ (f : Faults) (s : StateP) (uId : String) (amt : JsNum) (ty : String)
        (e : WErr),
        (PostgresRepository.runSaveTransaction f s uId amt ty).2 = .error e →
          (PostgresRepository.runSaveTransaction f s uId amt ty).1 = s
          ∧ (∀ q, PostgresRepository.getUserBalance
                (PostgresRepository.runSaveTransaction f s uId amt ty).1 q
              = PostgresRepository.getUserBalance s q)
          ∧ (∀ q, PostgresRepository.getUserTransactions
                (PostgresRepository.runSaveTransaction f s uId amt ty).1 q
              = PostgresRepository.getUserTransactions s q))
    ∧ (∀ (f : Faults) (s : StateA) (tx : ATx) (e : WErr),
        (PgWrite.runSaveTransaction f s tx).2 = .error e →
          (PgWrite.runSaveTransaction f s tx).1 = s
          ∧ (∀ q lim, PgRead.getTransactionsByUser
                (PgWrite.runSaveTransaction f s tx).1 q lim
              = PgRead.getTransactionsByUser s q lim)
          ∧ (∀ q, PgRead.getBalanceByUser (PgWrite.runSaveTransaction f s tx).1 q
              = PgRead.getBalanceByUser s q)) := by
  constructor
  · intro f s uId amt ty e h
    have h1 : (PostgresRepository.runSaveTransaction f s uId amt ty).1 = s := by
      unfold PostgresRepository.runSaveTransaction at h ⊢
      cases hs : PostgresRepository.saveTransaction f s uId amt ty with
      | ok p => rw [hs] at h; simp at h
      | error e2 => rfl
    exact ⟨h1, fun q => by rw [h1], fun q => by rw [h1]⟩
  · intro f s tx e h
    have h1 : (PgWrite.runSaveTransaction f s tx).1 = s := by
      unfold PgWrite.runSaveTransaction at h ⊢
      cases hs : PgWrite.saveTransaction f s tx with
      | ok s2 => rw [hs] at h; simp at h
      | error e2 => rfl
    exact ⟨h1, fun q lim => by rw [h1], fun q => by rw [h1]⟩

/-- Witness for C3: an injected UPDATE failure on the local-server path and an
    injected INSERT failure on the lambda path both roll back to the given state. -/
theorem c3_atomic_rollback_witness :
    (PostgresRepository.runSaveTransaction ⟨false, true⟩
        ⟨[("u1", JsNum.num 5)], [], 0⟩ "u1" (.num 3) "deposit").2
      = .error .updateFailed
    ∧ (PostgresRepository.runSaveTransaction ⟨false, true⟩
        ⟨[("u1", JsNum.num 5)], [], 0⟩ "u1" (.num 3) "deposit").1
      = ⟨[("u1", JsNum.num 5)], [], 0⟩
    ∧ (PgWrite.runSaveTransaction ⟨true, false⟩ ⟨[(.jstr "u1", .num 5)], [], 0⟩
        ⟨"t9", .jstr "u1", .num 3, "deposit", 0⟩).2 = .error .insertFailed
    ∧ (PgWrite.runSaveTransaction ⟨true, false⟩ ⟨[(.jstr "u1", .num 5)], [], 0⟩
        ⟨"t9", .jstr "u1", .num 3, "deposit", 0⟩).1
      = ⟨[(.jstr "u1", .num 5)], [], 0⟩ :=
  ⟨by rfl,
   (c3_atomic_rollback.1 ⟨false, true⟩ ⟨[("u1", JsNum.num 5)], [], 0⟩ "u1" (.num 3)
      "deposit" .updateFailed (by rfl)).1,
   by rfl,
   (c3_atomic_rollback.2 ⟨true, false⟩ ⟨[(.jstr "u1", .num 5)], [], 0⟩
      ⟨"t9", .jstr "u1", .num 3, "deposit", 0⟩ .insertFailed (by rfl)).1⟩

/-- C4, evaluated at the failing input: from balance 100 for u1, two concurrent
    withdrawals of 100 each. Under the interleaved schedule in which both clients
    run their unlocked SELECT before either commits, both reach phase 3 (committed
    success): the maintained balance is overwritten to 0 twice and the recorded
    history makes the derived balance -200, so both full-balance withdrawals
    succeed, which the claim says can never happen. Under a serial schedule the
    code does behave as claimed: client 1 commits (phase 3) and client 2 aborts
    with the insufficient-balance throw (phase 4). -/
theorem c4_unserialized_withdrawals :
    (runTwo "u1" (.num 100) [true, false, true, false, true, false]
        ⟨[("u1", .num 100)], [], 0⟩ ⟨0, .num 0⟩ ⟨0, .num 0⟩
      = (⟨[("u1", .num 0)],
          [⟨"u1", .num 100, "withdraw", 0⟩, ⟨"u1", .num 100, "withdraw", 1⟩], 2⟩,
         ⟨3, .num 100⟩, ⟨3, .num 100⟩))
    ∧ (PostgresRepository.getUserBalance
        (runTwo "u1" (.num 100) [true, false, true, false, true, false]
          ⟨[("u1", .num 100)], [], 0⟩ ⟨0, .num 0⟩ ⟨0, .num 0⟩).1 "u1"
      = .num (-200))
    ∧ ((runTwo "u1" (.num 100) [true, true, true, false, false, false]
          ⟨[("u1", .num 100)], [], 0⟩ ⟨0, .num 0⟩ ⟨0, .num 0⟩).2.1.phase = 3)
    ∧ ((runTwo "u1" (.num 100) [true, true, true, false, false, false]
          ⟨[("u1", .num 100)], [], 0⟩ ⟨0, .num 0⟩ ⟨0, .num 0⟩).2.2.phase = 4) :=
  ⟨rfl, rfl, rfl, rfl⟩

/-- C8: getTransactionsByUser returns at most limit rows, ordered by timestamp
    descending, and mutates no state; getUserTransactions on the service throws
    UserId is required when the userId is missing (falsy). -/
theorem c8_history_read :
    (∀ (s : StateA) (u : JSValue) (limit : Nat),
        (PgRead.getTransactionsByUser s u limit).length ≤ limit)
    ∧ (∀ (s : StateA) (u : JSValue) (limit : Nat),
        List.Pairwise (fun a b => b.timestamp ≤ a.timestamp)
          (PgRead.getTransactionsByUser s u limit))
    ∧ (∀ (s : StateA) (u : JSValue) (limit : Nat),
        PgRead.getTransactionsByUserRun s u limit
          = (PgRead.getTransactionsByUser s u limit, s))
    ∧ (∀ (u : JSValue) (s : StateP), truthy u = false →
        TransactionService.getUserTransactions u s = .error .userIdIsRequired) := by
  refine ⟨?_, ?_, ?_, ?_⟩
  · intro s u limit
    unfold PgRead.getTransactionsByUser
    rw [List.length_take]
    exact min_le_left _ _
  · intro s u limit
    have htrans : ∀ a b c : ATx, PgRead.tsDescA a b = true →
        PgRead.tsDescA b c = true → PgRead.tsDescA a c = true := by
      intro a b c hab hbc
      simp [PgRead.tsDescA] at hab hbc ⊢
      omega
    have htotal : ∀ a b : ATx, (PgRead.tsDescA a b || PgRead.tsDescA b a) = true := by
      intro a b
      simp [PgRead.tsDescA]
      omega
    have hs := List.sorted_mergeSort htrans htotal
      (s.log.filter (fun t => t.user_id == u))
    have hs2 : List.Pairwise (fun a b : ATx => b.timestamp ≤ a.timestamp)
        ((s.log.filter (fun t => t.user_id == u)).mergeSort PgRead.tsDescA) := by
      refine hs.imp ?_
      intro a b hab
      simpa [PgRead.tsDescA] using hab
    unfold PgRead.getTransactionsByUser
    exact List.Pairwise.sublist (List.take_sublist _ _) hs2
  · intro s u limit
    rfl
  · intro u s h
    unfold TransactionService.getUserTransactions
    simp [h]

/-- Witness for C8: a two-row history truncated to one row, and a missing userId
    rejected by the service. -/
theorem c8_history_read_witness :
    (PgRead.getTransactionsByUser
        ⟨[], [⟨"t1", .jstr "u1", .num 5, "deposit", 0⟩,
              ⟨"t2", .jstr "u1", .num 6, "deposit", 1⟩], 2⟩ (.jstr "u1") 1).length ≤ 1
    ∧ TransactionService.getUserTransactions .jundef ⟨[], [], 0⟩
      = .error .userIdIsRequired :=
  ⟨c8_history_read.1 _ _ 1, c8_history_read.2.2.2 .jundef ⟨[], [], 0⟩ (by rfl)⟩

/-- C9: the derived-balance read path returns 0 for a non-missing userId with no
    recorded transactions, with no not-found error, while the maintained-balance
    read path returns null for a userId with no users row: the two read paths
    disagree on the no-history case. -/
theorem c9_no_history_paths :
    (∀ (u : JSValue) (s : StateP), truthy u = true →
        s.log.filter (fun t => t.user_id == strOf u) = [] →
        TransactionService.getUserBalance u s = .ok (.num 0))
    ∧ (∀ (s : StateA) (u : JSValue), lookupBalanceA s.users u = none →
        PgRead.getBalanceByUser s u = none) := by
  constructor
  · intro u s h1 h2
    unfold TransactionService.getUserBalance PostgresRepository.getUserBalance
    simp [h1, h2, jsum]
  · intro s u h
    unfold PgRead.getBalanceByUser
    exact h

/-- Witness for C9: a user with no rows reads as balance 0 on the derived path and
    as null on the maintained path. -/
theorem c9_no_history_paths_witness :
    TransactionService.getUserBalance (.jstr "ghost")
        ⟨[("u1", .num 7)], [⟨"u1", .num 7, "deposit", 0⟩], 1⟩ = .ok (.num 0)
    ∧ PgRead.getBalanceByUser ⟨[(.jstr "u1", .num 7)], [], 0⟩ (.jstr "ghost")
      = none :=
  ⟨c9_no_history_paths.1 (.jstr "ghost") _ (by rfl) (by rfl),
   c9_no_history_paths.2 _ (.jstr "ghost") (by rfl)⟩

/-- C10: the amount validation of CreateTransactionService.execute accepts every
    truthy amount whose Number coercion is not <= 0 under JavaScript comparison;
    concretely, the numeric string 100 passes and is persisted as the coerced
    number 100, and the non-numeric string abc passes (Number gives NaN and
    NaN <= 0 is false) and the transaction reaches the store with amount NaN. -/
theorem c10_execute_amount_coercion :
    (∀ (c : CmdA), truthy c.user_id = true → truthy c.amount = true →
        (toNumber c.amount).leB (.num 0) = false →
        (c.type == .jstr "deposit" || c.type == .jstr "withdraw") = true →
        CreateTransactionService.validate c = none)
    ∧ (toNumber (.jstr "100") = .num 100)
    ∧ (CreateTransactionService.execute true noFaults
          ⟨.jstr "u1", .jstr "100", .jstr "deposit", some "t1", some 3⟩
          ⟨[(.jstr "u1", .num 0)], [], 0⟩
        = (⟨[(.jstr "u1", .num 100)],
            [⟨"t1", .jstr "u1", .num 100, "deposit", 3⟩], 1⟩,
           .ok ⟨"t1", .jstr "u1", .num 100, "deposit", 3⟩))
    ∧ (toNumber (.jstr "abc") = .nan)
    ∧ (CreateTransactionService.execute true noFaults
          ⟨.jstr "u1", .jstr "abc", .jstr "deposit", some "t2", some 4⟩
          ⟨[(.jstr "u1", .num 0)], [], 0⟩
        = (⟨[(.jstr "u1", .nan)],
            [⟨"t2", .jstr "u1", .nan, "deposit", 4⟩], 1⟩,
           .ok ⟨"t2", .jstr "u1", .nan, "deposit", 4⟩)) := by
  refine ⟨?_, by rfl, by rfl, by rfl, by rfl⟩
  intro c h1 h2 h3 h4
  unfold CreateTransactionService.validate
  simp [h1, h2, h3, h4]

/-- Witness for C10: validation passes on the non-numeric string amount abc. -/
theorem c10_execute_amount_coercion_witness :
    CreateTransactionService.validate
      ⟨.jstr "u1", .jstr "abc", .jstr "deposit", some "t2", none⟩ = none :=
  c10_execute_amount_coercion.1 _ (by rfl) (by rfl) (by rfl) (by rfl)

/-! Shape lemmas: what a successful call implies about the branches it took. -/

/-- A successful processTransaction call implies: the publisher did not throw,
    every validation check passed, the advisory withdrawal check passed, and the
    store write committed with the returned state and transaction. -/
theorem processTransaction_ok_spec {pubOk : Bool} {f : Faults} {c : CmdP}
    {s s2 : StateP} {tx : PTx}
    (h : TransactionService.processTransaction pubOk f c s = (s2, .ok tx)) :
    pubOk = true
    ∧ (!(truthy c.userId && isString c.userId)) = false
    ∧ (!(typeofNumber c.amount) || (toNumber c.amount).leB (.num 0)) = false
    ∧ (!(c.type == .jstr "deposit" || c.type == .jstr "withdraw")) = false
    ∧ (strOf c.type = "withdraw"
        && (toNumber c.amount).gtB
            (PostgresRepository.getUserBalance s (strOf c.userId))) = false
    ∧ PostgresRepository.saveTransaction f s (strOf c.userId) (toNumber c.amount)
        (strOf c.type) = .ok (s2, tx) := by
  unfold TransactionService.processTransaction at h
  split at h
  · exact absurd h (by simp)
  · next h1 =>
    split at h
    · exact absurd h (by simp)
    · next h2 =>
      split at h
      · exact absurd h (by simp)
      · next h3 =>
        split at h
        · exact absurd h (by simp)
        · next h4 =>
          split at h
          · next e hsave => exact absurd h (by simp)
          · next p hsave =>
            cases pubOk with
            | false => exact absurd h (by simp)
            | true =>
              simp at h
              refine ⟨rfl, by simpa using h1, by simpa using h2, by simpa using h3,
                by simpa using h4, ?_⟩
              rw [hsave]
              exact congrArg Except.ok (Prod.ext h.1 h.2)

/-- A successful execute call implies: the publisher did not throw, validation
    passed, the returned transaction is the built one and the store write
    committed with the returned state. -/
theorem execute_ok_spec {pubOk : Bool} {f : Faults} {c : CmdA} {s s2 : StateA}
    {tx : ATx}
    (h : CreateTransactionService.execute pubOk f c s = (s2, .ok tx)) :
    pubOk = true
    ∧ CreateTransactionService.validate c = none
    ∧ tx = CreateTransactionService.buildTx c s
    ∧ PgWrite.saveTransaction f s (CreateTransactionService.buildTx c s)
      = .ok s2 := by
  unfold CreateTransactionService.execute at h
  split at h
  · exact absurd h (by simp)
  · next hv =>
    split at h
    · next e hsave => exact absurd h (by simp)
    · next s3 hsave =>
      cases pubOk with
      | false => exact absurd h (by simp)
      | true =>
        simp at h
        exact ⟨rfl, hv, h.2.symm, by rw [hsave, h.1]⟩

/-- A successful adapter write implies: no duplicate id existed and the row was
    appended to the log. -/
theorem pgwrite_save_ok_spec {f : Faults} {s : StateA} {tx : ATx} {s2 : StateA}
    (h : PgWrite.saveTransaction f s tx = .ok s2) :
    (s.log.any (fun t => t.transaction_id == tx.transaction_id)) = false
    ∧ s2.log = s.log ++ [tx] := by
  unfold PgWrite.saveTransaction at h
  split at h
  · exact absurd h (by simp)
  · next h1 =>
    split at h
    · exact absurd h (by simp)
    · next h2 =>
      split at h
      · exact absurd h (by simp)
      · next h3 =>
        simp at h
        exact ⟨by simpa using h1, by rw [← h]⟩

/-- A successful withdrawal on the PostgresRepository write path implies: the user
    row existed, the funds check passed, the stored balance was overwritten with
    the difference and the withdrawal row was appended. -/
theorem psave_withdraw_ok_spec {f : Faults} {s s2 : StateP} {uId : String}
    {amt : JsNum} {tx : PTx}
    (h : PostgresRepository.saveTransaction f s uId amt "withdraw" = .ok (s2, tx)) :
    ∃ bal, lookupBalance s.users uId = some bal ∧ amt.gtB bal = false
      ∧ s2.users = setBalance s.users uId (bal.sub amt)
      ∧ s2.log = s.log ++ [⟨uId, amt, "withdraw", s.clock⟩]
      ∧ tx = ⟨uId, amt, "withdraw", s.clock⟩ := by
  unfold PostgresRepository.saveTransaction at h
  split at h
  · exact absurd h (by simp)
  · next bal hbal =>
    split at h
    · next heq => exact absurd heq (by decide)
    · next hne =>
      split at h
      · next heq =>
        split at h
        · exact absurd h (by simp)
        · next hgt =>
          split at h
          · exact absurd h (by simp)
          · next hfi =>
            split at h
            · exact absurd h (by simp)
            · next hfu =>
              simp at h
              exact ⟨bal, hbal, by simpa using hgt, by rw [← h.1], by rw [← h.1],
                h.2.symm⟩
      · next hne2 => exact absurd rfl hne2

/-- Sum of a one-element list. -/
theorem jsum_singleton (x : JsNum) : jsum [x] = x := jadd_zero x

/-- C2 counterexample: on the lambda write path, from stored balance 100 for u1 a
    withdrawal of 150 passes validation, is persisted with no funds check, reports
    success, and leaves the stored balance at -50, strictly below zero. -/
theorem c2_adapter_negative_balance :
    CreateTransactionService.execute true noFaults
        ⟨.jstr "u1", .jnum 150, .jstr "withdraw", some "t1", some 0⟩
        ⟨[(.jstr "u1", .num 100)], [], 0⟩
      = (⟨[(.jstr "u1", .num (-50))],
          [⟨"t1", .jstr "u1", .num 150, "withdraw", 0⟩], 1⟩,
         .ok ⟨"t1", .jstr "u1", .num 150, "withdraw", 0⟩)
    ∧ (JsNum.num (-50)).ltB (.num 0) = true :=
  ⟨rfl, rfl⟩

/-- C2 as amended: on the TransactionService / PostgresRepository write path a
    withdrawal whose amount exceeds the stored balance fails with the
    insufficient-funds error (in particular, withdrawing 150 through the service
    when the balance is 100 returns that error and leaves the state unchanged),
    and a successful withdrawal never leaves a balance below zero - neither the
    stored users balance written by saveTransaction nor the derived balance after
    a successful processTransaction withdrawal (the lambda write path, by
    contrast, checks nothing; see the counterexample). -/
theorem c2_no_negative_balance_core :
    (∀ (f : Faults) (s : StateP) (uId : String) (amt bal : JsNum),
        lookupBalance s.users uId = some bal → amt.gtB bal = true →
        PostgresRepository.saveTransaction f s uId amt "withdraw"
          = .error .insufficientBalance)
    ∧ (TransactionService.processTransaction true noFaults
          ⟨.jstr "u1", .jnum 150, .jstr "withdraw"⟩
          ⟨[("u1", .num 100)], [⟨"u1", .num 100, "deposit", 0⟩], 1⟩
        = (⟨[("u1", .num 100)], [⟨"u1", .num 100, "deposit", 0⟩], 1⟩,
           .error .insufficientBalance))
    ∧ (∀ (f : Faults) (s s2 : StateP) (uId : String) (amt : JsNum) (tx : PTx),
        PostgresRepository.saveTransaction f s uId amt "withdraw" = .ok (s2, tx) →
        ∀ b, lookupBalance s2.users uId = some b → b.ltB (.num 0) = false)
    ∧ (∀ (pubOk : Bool) (f : Faults) (c : CmdP) (s s2 : StateP) (tx : PTx),
        TransactionService.processTransaction pubOk f c s = (s2, .ok tx) →
        strOf c.type = "withdraw" →
        (PostgresRepository.getUserBalance s2 (strOf c.userId)).ltB (.num 0)
          = false) := by
  refine ⟨?_, by rfl, ?_, ?_⟩
  · intro f s uId amt bal hb hgt
    unfold PostgresRepository.saveTransaction
    simp [hb, hgt]
  · intro f s s2 uId amt tx h b hb2
    obtain ⟨bal, hbal, hgt, husers, -, -⟩ := psave_withdraw_ok_spec h
    rw [husers, lookupBalance_setBalance s.users uId bal (bal.sub amt) hbal] at hb2
    obtain rfl : b = bal.sub amt := (Option.some.inj hb2).symm
    exact sub_not_lt_zero bal amt hgt
  · intro pubOk f c s s2 tx h hw
    obtain ⟨-, -, -, -, h4, hsave⟩ := processTransaction_ok_spec h
    rw [hw] at hsave
    obtain ⟨bal, hbal, hgt, husers, hlog, htx⟩ := psave_withdraw_ok_spec hsave
    have hgt2 : (toNumber c.amount).gtB
        (PostgresRepository.getUserBalance s (strOf c.userId)) = false := by
      simpa [hw] using h4
    have hstep : PostgresRepository.getUserBalance s2 (strOf c.userId)
        = (PostgresRepository.getUserBalance s (strOf c.userId)).sub
            (toNumber c.amount) := by
      unfold PostgresRepository.getUserBalance
      rw [hlog, List.filter_append, List.map_append, jsum_append]
      have hfil : List.filter (fun t => t.user_id == strOf c.userId)
          [(⟨strOf c.userId, toNumber c.amount, "withdraw", s.clock⟩ : PTx)]
          = [⟨strOf c.userId, toNumber c.amount, "withdraw", s.clock⟩] := by
        simp [List.filter]
      rw [hfil]
      have hsw : PostgresRepository.signedAmount
          ⟨strOf c.userId, toNumber c.amount, "withdraw", s.clock⟩
          = (toNumber c.amount).neg := rfl
      rw [List.map_cons, List.map_nil, jsum_singleton, hsw, jadd_neg]
    rw [hstep]
    exact sub_not_lt_zero _ _ hgt2

/-- Witness for C2 as amended: withdrawing 150 from stored balance 100 fails with
    the insufficient-funds error, while withdrawing 40 succeeds and leaves the
    stored balance 60, not below zero. -/
theorem c2_no_negative_balance_core_witness :
    PostgresRepository.saveTransaction noFaults ⟨[("u1", .num 100)], [], 0⟩ "u1"
        (.num 150) "withdraw" = .error .insufficientBalance
    ∧ PostgresRepository.saveTransaction noFaults ⟨[("u1", .num 100)], [], 0⟩ "u1"
        (.num 40) "withdraw"
      = .ok (⟨[("u1", .num 60)], [⟨"u1", .num 40, "withdraw", 0⟩], 1⟩,
             ⟨"u1", .num 40, "withdraw", 0⟩)
    ∧ (JsNum.num 60).ltB (.num 0) = false :=
  ⟨c2_no_negative_balance_core.1 noFaults ⟨[("u1", .num 100)], [], 0⟩ "u1"
     (.num 150) (.num 100) (by rfl) (by rfl),
   by rfl,
   c2_no_negative_balance_core.2.2.1 noFaults ⟨[("u1", .num 100)], [], 0⟩
     ⟨[("u1", .num 60)], [⟨"u1", .num 40, "withdraw", 0⟩], 1⟩ "u1" (.num 40)
     ⟨"u1", .num 40, "withdraw", 0⟩ (by rfl) (.num 60) (by rfl)⟩

/-- C5: replaying a caller-supplied transaction id is rejected: when a first
    execute call with id tid commits, a second execute of the same command against
    the resulting state fails with the duplicate-key error of the primary-key
    constraint and leaves the state unchanged, so the balance change is never
    applied twice. -/
theorem c5_duplicate_id_rejected :
    ∀ (pub1 pub2 : Bool) (f1 f2 : Faults) (c : CmdA) (tid : String)
      (s s1 : StateA) (tx : ATx),
      c.transaction_id = some tid →
      CreateTransactionService.execute pub1 f1 c s = (s1, .ok tx) →
      CreateTransactionService.execute pub2 f2 c s1
        = (s1, .error .duplicateKey) := by
  intro pub1 pub2 f1 f2 c tid s s1 tx hid h
  obtain ⟨-, hv, htx, hsave⟩ := execute_ok_spec h
  obtain ⟨hdup, hlog⟩ := pgwrite_save_ok_spec hsave
  have htid1 : (CreateTransactionService.buildTx c s).transaction_id = tid := by
    simp [CreateTransactionService.buildTx, hid]
  have htid2 : (CreateTransactionService.buildTx c s1).transaction_id = tid := by
    simp [CreateTransactionService.buildTx, hid]
  have hdup2 : (s1.log.any (fun t =>
      t.transaction_id == (CreateTransactionService.buildTx c s1).transaction_id))
      = true := by
    rw [hlog, htid2]
    simp [List.any_append, htid1]
  have hsave2 : PgWrite.saveTransaction f2 s1
      (CreateTransactionService.buildTx c s1) = .error .duplicateKey := by
    unfold PgWrite.saveTransaction
    rw [if_pos hdup2]
  unfold CreateTransactionService.execute
  rw [hv, hsave2]

/-- Witness for C5: a deposit with id t1 commits once; submitting it again is
    rejected with the duplicate-key error and the state is unchanged. -/
theorem c5_duplicate_id_rejected_witness :
    CreateTransactionService.execute true noFaults
        ⟨.jstr "u1", .jnum 100, .jstr "deposit", some "t1", some 5⟩
        ⟨[(.jstr "u1", .num 0)], [], 0⟩
      = (⟨[(.jstr "u1", .num 100)],
          [⟨"t1", .jstr "u1", .num 100, "deposit", 5⟩], 1⟩,
         .ok ⟨"t1", .jstr "u1", .num 100, "deposit", 5⟩)
    ∧ CreateTransactionService.execute true noFaults
        ⟨.jstr "u1", .jnum 100, .jstr "deposit", some "t1", some 5⟩
        ⟨[(.jstr "u1", .num 100)], [⟨"t1", .jstr "u1", .num 100, "deposit", 5⟩], 1⟩
      = (⟨[(.jstr "u1", .num 100)],
          [⟨"t1", .jstr "u1", .num 100, "deposit", 5⟩], 1⟩,
         .error .duplicateKey) :=
  ⟨by rfl,
   c5_duplicate_id_rejected true true noFaults noFaults
     ⟨.jstr "u1", .jnum 100, .jstr "deposit", some "t1", some 5⟩ "t1"
     ⟨[(.jstr "u1", .num 0)], [], 0⟩
     ⟨[(.jstr "u1", .num 100)], [⟨"t1", .jstr "u1", .num 100, "deposit", 5⟩], 1⟩
     ⟨"t1", .jstr "u1", .num 100, "deposit", 5⟩ (by rfl) (by rfl)⟩

/-- C6 counterexample: a valid deposit whose store write commits but whose Event
    Sink publish throws: the committed transaction stays in the returned state
    (the log holds the deposit row and the balance was credited), yet the call
    surfaces the publish error to the caller instead of returning the persisted
    transaction. -/
theorem c6_publish_error_surfaces :
    TransactionService.processTransaction false noFaults
        ⟨.jstr "u1", .jnum 100, .jstr "deposit"⟩ ⟨[("u1", .num 0)], [], 0⟩
      = (⟨[("u1", .num 100)], [⟨"u1", .num 100, "deposit", 0⟩], 1⟩,
         .error .publishFailed) :=
  rfl

/-- C6 as amended: when the Event Sink publish fails after a successful store
    write, neither service rolls the committed transaction back - the state is
    exactly the committed one - but the publish failure is rethrown (logged and
    propagated), so the caller receives an error, not the persisted transaction. -/
theorem c6_publish_failure_kept_commit :
    (∀ (f : Faults) (c : CmdP) (s s2 : StateP) (tx : PTx),
        TransactionService.processTransaction true f c s = (s2, .ok tx) →
        TransactionService.processTransaction false f c s
          = (s2, .error .publishFailed))
    ∧ (∀ (f : Faults) (c : CmdA) (s s2 : StateA) (tx : ATx),
        CreateTransactionService.execute true f c s = (s2, .ok tx) →
        CreateTransactionService.execute false f c s
          = (s2, .error .publishFailed)) := by
  constructor
  · intro f c s s2 tx h
    obtain ⟨-, h1, h2, h3, h4, hsave⟩ := processTransaction_ok_spec h
    unfold TransactionService.processTransaction
    rw [if_neg (by simp [h1]), if_neg (by simp [h2]), if_neg (by simp [h3]),
      if_neg (by simp [h4]), hsave]
    rfl
  · intro f c s s2 tx h
    obtain ⟨-, hv, htx, hsave⟩ := execute_ok_spec h
    unfold CreateTransactionService.execute
    rw [hv, hsave]
    rfl

/-- Witness for C6 as amended: a committed deposit with a failing publisher keeps
    the credited balance and inserted row but returns the publish error. -/
theorem c6_publish_failure_kept_commit_witness :
    TransactionService.processTransaction false noFaults
        ⟨.jstr "u2", .jnum 50, .jstr "deposit"⟩ ⟨[("u2", .num 1)], [], 0⟩
      = (⟨[("u2", .num 51)], [⟨"u2", .num 50, "deposit", 0⟩], 1⟩,
         .error .publishFailed) :=
  c6_publish_failure_kept_commit.1 noFaults ⟨.jstr "u2", .jnum 50, .jstr "deposit"⟩
    ⟨[("u2", .num 1)], [], 0⟩ ⟨[("u2", .num 51)], [⟨"u2", .num 50, "deposit", 0⟩], 1⟩
    ⟨"u2", .num 50, "deposit", 0⟩ (by rfl)

/-- C7 counterexample: NaN is of JavaScript number type but it is not a positive
    number, yet processTransaction with amount NaN passes all three validation
    checks (NaN <= 0 is false), calls the store - the row with amount NaN is
    inserted and the stored balance becomes NaN - and returns the saved
    transaction instead of a validation error. -/
theorem c7_nan_passes_validation :
    isPositiveNumber .jnan = false
    ∧ TransactionService.processTransaction true noFaults
        ⟨.jstr "u1", .jnan, .jstr "deposit"⟩ ⟨[("u1", .num 0)], [], 0⟩
      = (⟨[("u1", .nan)], [⟨"u1", .nan, "deposit", 0⟩], 1⟩,
         .ok ⟨"u1", .nan, "deposit", 0⟩) :=
  ⟨rfl, rfl⟩

/-- C7 as amended: processTransaction validates in the fixed order (1) userId
    missing or not a string, (2) amount not of JavaScript number type or
    amount <= 0 under JavaScript comparison - a check NaN passes, so a NaN amount
    is not rejected - and (3) type outside deposit and withdraw; it fails fast
    with the corresponding error and an unchanged state on the first violated
    check, and for every non-NaN amount check (2) passes exactly when the amount
    is a positive number. -/
theorem c7_validation_order :
    (∀ (pubOk : Bool) (f : Faults) (c : CmdP) (s : StateP),
        (truthy c.userId && isString c.userId) = false →
        TransactionService.processTransaction pubOk f c s
          = (s, .error .invalidOrMissingUserId))
    ∧ (∀ (pubOk : Bool) (f : Faults) (c : CmdP) (s : StateP),
        (truthy c.userId && isString c.userId) = true →
        (!(typeofNumber c.amount) || (toNumber c.amount).leB (.num 0)) = true →
        TransactionService.processTransaction pubOk f c s
          = (s, .error .amountMustBePositiveNumber))
    ∧ (∀ (pubOk : Bool) (f : Faults) (c : CmdP) (s : StateP),
        (truthy c.userId && isString c.userId) = true →
        (!(typeofNumber c.amount) || (toNumber c.amount).leB (.num 0)) = false →
        (c.type == .jstr "deposit" || c.type == .jstr "withdraw") = false →
        TransactionService.processTransaction pubOk f c s
          = (s, .error .typeMustBeDepositOrWithdraw))
    ∧ (∀ (v : JSValue), v ≠ .jnan →
        ((!(typeofNumber v) || (toNumber v).leB (.num 0)) = false
          ↔ isPositiveNumber v = true)) := by
  refine ⟨?_, ?_, ?_, ?_⟩
  · intro pubOk f c s h1
    unfold TransactionService.processTransaction
    simp [h1]
  · intro pubOk f c s h1 h2
    unfold TransactionService.processTransaction
    simp [h1, h2]
  · intro pubOk f c s h1 h2 h3
    unfold TransactionService.processTransaction
    simp [h1, h2, h3]
  · intro v hv
    cases v with
    | jnan => exact absurd rfl hv
    | jnum n => simp [typeofNumber, toNumber, JsNum.leB, isPositiveNumber]
    | jstr s => simp [typeofNumber, isPositiveNumber]
    | jbool b => simp [typeofNumber, isPositiveNumber]
    | jnull => simp [typeofNumber, isPositiveNumber]
    | jundef => simp [typeofNumber, isPositiveNumber]

/-- Witness for C7 as amended: a missing userId is rejected first with an
    unchanged state, and for the non-NaN amount 7 the code check agrees with
    being a positive number. -/
theorem c7_validation_order_witness :
    TransactionService.processTransaction true noFaults
        ⟨.jundef, .jnum 5, .jstr "deposit"⟩ ⟨[], [], 0⟩
      = (⟨[], [], 0⟩, .error .invalidOrMissingUserId)
    ∧ ((!(typeofNumber (.jnum 7)) || (toNumber (.jnum 7)).leB (.num 0)) = false
        ↔ isPositiveNumber (.jnum 7) = true) :=
  ⟨c7_validation_order.1 true noFaults ⟨.jundef, .jnum 5, .jstr "deposit"⟩
      ⟨[], [], 0⟩ (by rfl),
   c7_validation_order.2.2.2 (.jnum 7) (by decide)⟩

end Wallet
